import Mathlib

/-!
Verification of the todolist-backend-flask service layer.

The definitions below are a shallow embedding of the Python source:
  * `src/todo_app/constants.py`  — limits and the priority enumeration,
  * `src/todo_app/models.py`     — the `Todo` row (SQLite storage view),
  * `src/todo_app/schemas.py`    — marshmallow validation of input payloads,
  * `src/todo_app/todos/services.py` — `TodoService` operations.

Modelling conventions:
  * machine state is the `todos` table as a list of rows in insertion
    (ascending-id / SQLite rowid) order plus the autoincrement counter;
  * timestamps are abstract `Nat` clock readings supplied per operation
    (`datetime.now(timezone.utc)` is a caller-side oracle);
  * `date` columns are kept as their ISO `YYYY-MM-DD` text, which is how
    SQLite stores and compares them;
  * Python exceptions become `Except Err`; marshmallow collects the names
    of the fields that failed validation (`Err.validationFailed`);
  * the `unique=True` constraint on `judul` (models.py) fires at commit
    time and is modelled inside `update_todo` (the only write that can
    reach the constraint, since `create_todo` pre-checks duplicates);
  * SQLAlchemy's flush compares each assigned attribute to its committed
    value and emits no UPDATE when nothing net-changed, so a no-op update
    commits nothing and the `onupdate` stamp on `updated_at` never fires —
    `update_todo` models both branches;
  * the `ORDER BY created_at DESC` / pagination step of the read endpoints
    is not modelled as a list function: the source supplies no tie-break
    for rows with equal timestamps, so it fixes no single output order;
    the filter predicates feeding it (`searchFiltered`) are modelled.
-/

namespace TodoApp

/-- constants.py: `PRIORITIES`. -/
def PRIORITIES : List String := ["High", "Medium", "Low"]

/-- constants.py: `DEFAULT_PAGE`. -/
def DEFAULT_PAGE : Int := 1

/-- constants.py: `DEFAULT_PER_PAGE`. -/
def DEFAULT_PER_PAGE : Int := 10

/-- constants.py: `MAX_PER_PAGE`. -/
def MAX_PER_PAGE : Int := 100

/-- The error taxonomy raised by the service layer (ValueError messages of
services.py and marshmallow `ValidationError`s, as routed by routes.py);
`storageError` stands for an unexpected exception out of `db.session.commit()`
(e.g. an `IntegrityError` from the unique constraint), which routes.py turns
into the generic database-error response after a rollback. -/
inductive Err where
  | noInput
  | duplicateTitle
  | noDataForUpdate
  | notFound
  | validationFailed (fields : List String)
  | storageError
  | invalidPagination
deriving DecidableEq, Repr

instance {ε α : Type} [DecidableEq ε] [DecidableEq α] : DecidableEq (Except ε α)
  | .ok a, .ok b =>
    if h : a = b then .isTrue (by rw [h]) else .isFalse (by simp [h])
  | .ok _, .error _ => .isFalse (by simp)
  | .error _, .ok _ => .isFalse (by simp)
  | .error e, .error f =>
    if h : e = f then .isTrue (by rw [h]) else .isFalse (by simp [h])

/-- Python `str.capitalize()`: first character uppercased, the rest
lowercased (ASCII-faithful). Used by `schemas.validate_prioritas` and by
the priority filter in `services.search_todos`. -/
def pyCapitalize (s : String) : String :=
  match s.data with
  | [] => ""
  | c :: cs => String.mk (c.toUpper :: cs.map Char.toLower)

/-- Python `str.lower()` (ASCII-faithful). -/
def pyLower (s : String) : String :=
  String.mk (s.data.map Char.toLower)

/-- Digit runs accepted by Python `int()`: digits with single underscores
allowed only between digits (`"5_0"` is fine, `"_5"`, `"5_"`, `"5__0"` are
not), and at least one digit. -/
def pyDigitsOk : List Char → Bool
  | [] => false
  | [c] => c.isDigit
  | c :: '_' :: rest => c.isDigit && pyDigitsOk rest
  | c :: rest => c.isDigit && pyDigitsOk rest

/-- Numeric value of a digit run, skipping underscores. -/
def digitsVal (cs : List Char) : Nat :=
  cs.foldl (fun acc c => if c = '_' then acc else acc * 10 + (c.toNat - '0'.toNat)) 0

/-- Python `str.strip()` with no argument: leading and trailing whitespace
removed. -/
def pyStrip (s : String) : List Char :=
  ((s.data.dropWhile Char.isWhitespace).reverse.dropWhile Char.isWhitespace).reverse

/-- Python `int(s)` on a string: optional surrounding whitespace, optional
sign, then a digit run; `none` models the `ValueError`. -/
def pyInt (s : String) : Option Int :=
  match pyStrip s with
  | '+' :: rest => if pyDigitsOk rest then some (digitsVal rest) else none
  | '-' :: rest => if pyDigitsOk rest then some (-(digitsVal rest : Int)) else none
  | cs => if pyDigitsOk cs then some (digitsVal cs) else none

/-- One parameter of `validate_pagination_params`: Python truthiness makes
`None` and `""` fall back to the default, anything else goes through
`int()`. -/
def parseParam (v : Option String) (dflt : Int) : Option Int :=
  match v with
  | none => some dflt
  | some s => if s = "" then some dflt else pyInt s

/-- services.py lines 36-37: `if page_int < 1: page_int = DEFAULT_PAGE`. -/
def clampPage (p : Int) : Int :=
  if p < 1 then DEFAULT_PAGE else p

/-- services.py lines 38-41, the two sequential reassignments:
`if per_page_int > MAX_PER_PAGE: ... = MAX_PER_PAGE` then
`if per_page_int < 1: ... = DEFAULT_PER_PAGE`. -/
def clampPer (pp : Int) : Int :=
  let pp1 := if pp > MAX_PER_PAGE then MAX_PER_PAGE else pp
  if pp1 < 1 then DEFAULT_PER_PAGE else pp1

/-- services.py `TodoService.validate_pagination_params`: Python truthiness
makes `None` and `""` fall back to the defaults; `int()` failure raises
`ValueError(ERROR_MESSAGES["invalid_page"])`; then the clamps. -/
def validate_pagination_params (page per_page : Option String) :
    Except Err (Int × Int) :=
  match parseParam page DEFAULT_PAGE, parseParam per_page DEFAULT_PER_PAGE with
  | some p, some pp => .ok (clampPage p, clampPer pp)
  | _, _ => .error .invalidPagination

/-- models.py `Todo`: one row of the `todos` table. `deadline` is kept as
the ISO date text SQLite stores; timestamps are abstract clock readings. -/
structure Todo where
  id : Nat
  judul : String
  status : Bool
  prioritas : String
  deadline : Option String
  created_at : Nat
  updated_at : Option Nat
deriving DecidableEq, Repr

/-- The database: rows in insertion (ascending-id) order, plus the
autoincrement counter for the next primary key. -/
structure State where
  todos : List Todo
  nextId : Nat
deriving DecidableEq, Repr

/-- The empty database (`db.create_all()` on a fresh file; SQLite
autoincrement starts at 1). -/
def initState : State := { todos := [], nextId := 1 }

/-- A JSON payload as the schema sees it: each loadable field either absent
or present with a (deserialised) value; `deadline? = some none` is an
explicit JSON `null` (the field allows none). `extra` lists the payload keys
the schema cannot load — unknown keys and the dump-only keys `id`,
`created_at`, `updated_at`. -/
structure TodoInput where
  judul? : Option String := none
  status? : Option Bool := none
  prioritas? : Option String := none
  deadline? : Option (Option String) := none
  extra : List String := []
deriving DecidableEq, Repr

/-- Python `if not data:` on the payload dict. -/
def TodoInput.isEmpty (d : TodoInput) : Bool :=
  d.judul?.isNone && d.status?.isNone && d.prioritas?.isNone &&
    d.deadline?.isNone && d.extra.isEmpty

def isLeap (y : Nat) : Bool :=
  (y % 4 = 0 && y % 100 ≠ 0) || y % 400 = 0

def daysInMonth (y m : Nat) : Nat :=
  if m = 2 then (if isLeap y then 29 else 28)
  else if m = 4 || m = 6 || m = 9 || m = 11 then 30
  else 31

/-- marshmallow `fields.Date` deserialisation: strict `YYYY-MM-DD` with a
real calendar check (Python `datetime.date`). -/
def parseDate (s : String) : Option (Nat × Nat × Nat) :=
  match s.data with
  | [y1, y2, y3, y4, '-', m1, m2, '-', d1, d2] =>
    if (y1.isDigit && y2.isDigit && y3.isDigit && y4.isDigit &&
        m1.isDigit && m2.isDigit && d1.isDigit && d2.isDigit) then
      let y := digitsVal [y1, y2, y3, y4]
      let m := digitsVal [m1, m2]
      let d := digitsVal [d1, d2]
      if 1 ≤ y ∧ 1 ≤ m ∧ m ≤ 12 ∧ 1 ≤ d ∧ d ≤ daysInMonth y m then
        some (y, m, d)
      else none
    else none
  | _ => none

/-- schemas.py `judul` rules: required on a full load (absent ⇒ missing
required field), and when present the field validator
`len(x.strip()) > 0` must hold. Returns the field names in error. -/
def judulErrors (v : Option String) (forUpdate : Bool) : List String :=
  match v with
  | none => if forUpdate then [] else ["judul"]
  | some s => if (pyStrip s).length > 0 then [] else ["judul"]

/-- schemas.py `validate_prioritas`: error when the value is truthy and its
capitalized form is not in `PRIORITIES`. -/
def prioritasErrors (v : Option String) : List String :=
  match v with
  | none => []
  | some s => if s ≠ "" ∧ pyCapitalize s ∉ PRIORITIES then ["prioritas"] else []

/-- schemas.py `deadline`: `allow_none=True`; a present string must parse
as a `YYYY-MM-DD` date. -/
def deadlineErrors (v : Option (Option String)) : List String :=
  match v with
  | none => []
  | some none => []
  | some (some s) => if (parseDate s).isSome then [] else ["deadline"]

/-- marshmallow `TodoSchema.load`: with the default `Meta.unknown = RAISE`,
every key the schema cannot load errors with "Unknown field."; field errors
are collected, never short-circuited. Returns the names of all fields in
error (empty ⇔ the load succeeds). -/
def loadErrors (d : TodoInput) (forUpdate : Bool) : List String :=
  d.extra ++ judulErrors d.judul? forUpdate ++ prioritasErrors d.prioritas? ++
    deadlineErrors d.deadline?

/-- services.py `create_todo` lines 93-97: `if "judul" in data:` then
`Todo.query.filter_by(judul=data["judul"]).first()` — a case-sensitive exact
match against stored titles. -/
def dupCheck (st : State) (d : TodoInput) : Bool :=
  match d.judul? with
  | some j => st.todos.any (fun t => t.judul == j)
  | none => false

/-- services.py `TodoService.create_todo`: empty-payload check, duplicate
pre-check, schema load (column defaults `status=False`,
`prioritas="Medium"` apply to absent fields), then insert with the next
autoincrement id and `created_at = now`. -/
def create_todo (st : State) (d : TodoInput) (now : Nat) :
    Except Err (State × Todo) :=
  if d.isEmpty then .error .noInput
  else if dupCheck st d then .error .duplicateTitle
  else
    match loadErrors d false with
    | [] =>
      let t : Todo :=
        { id := st.nextId
          judul := d.judul?.getD ""
          status := d.status?.getD false
          prioritas := d.prioritas?.getD "Medium"
          deadline := d.deadline?.getD none
          created_at := now
          updated_at := none }
      .ok ({ todos := st.todos ++ [t], nextId := st.nextId + 1 }, t)
    | errs => .error (.validationFailed errs)

/-- marshmallow-sqlalchemy partial load onto an existing instance: every
field present in the payload is assigned, the rest keep their values. The
`updated_at` stamp is not part of the load — it happens (or not) at flush,
see `update_todo`. -/
def applyPatch (t : Todo) (d : TodoInput) : Todo :=
  { t with
    judul := d.judul?.getD t.judul
    status := d.status?.getD t.status
    prioritas := d.prioritas?.getD t.prioritas
    deadline := match d.deadline? with | none => t.deadline | some v => v }

/-- services.py `TodoService.update_todo`: empty-payload check,
`db.get_or_404` by primary key, partial schema load, commit. At flush,
SQLAlchemy compares every assigned attribute to its committed value: when
no attribute net-changed it emits no UPDATE at all, so the commit is a
no-op and the `onupdate` hook on `updated_at` (models.py) never fires;
otherwise the UPDATE carries the changes plus the `onupdate` timestamp,
and the `unique=True` constraint on `judul` (models.py) can reject it with
an `IntegrityError`, which routes.py rolls back and reports as the generic
database error — modelled as `Err.storageError` with no state change. -/
def update_todo (st : State) (todo_id : Nat) (d : TodoInput) (now : Nat) :
    Except Err (State × Todo) :=
  if d.isEmpty then .error .noDataForUpdate
  else
    match st.todos.find? (fun t => t.id == todo_id) with
    | none => .error .notFound
    | some t =>
      match loadErrors d true with
      | [] =>
        if applyPatch t d = t then .ok (st, t)
        else
          let t' := { applyPatch t d with updated_at := some now }
          if st.todos.any (fun u => (u.id != todo_id) && (u.judul == t'.judul))
          then .error .storageError
          else
            .ok ({ st with
                   todos := st.todos.map (fun u => if u.id == todo_id then t' else u) },
                 t')
      | errs => .error (.validationFailed errs)

/-- services.py `TodoService.delete_todo`: `db.get_or_404` then
`db.session.delete` + commit. -/
def delete_todo (st : State) (todo_id : Nat) : Except Err State :=
  match st.todos.find? (fun t => t.id == todo_id) with
  | none => .error .notFound
  | some _ => .ok { st with todos := st.todos.filter (fun t => t.id != todo_id) }

/-- A service call arriving at the store, with the commit-time clock
reading for the mutating operations. -/
inductive Op where
  | create (d : TodoInput) (now : Nat)
  | update (todo_id : Nat) (d : TodoInput) (now : Nat)
  | delete (todo_id : Nat)

/-- Effect of one operation on the store: a raised error leaves the
database untouched (the service raises before mutating, and commit-time
failures are rolled back by routes.py). -/
def applyOp (st : State) : Op → State
  | .create d now =>
    match create_todo st d now with
    | .ok (st', _) => st'
    | .error _ => st
  | .update i d now =>
    match update_todo st i d now with
    | .ok (st', _) => st'
    | .error _ => st
  | .delete i =>
    match delete_todo st i with
    | .ok st' => st'
    | .error _ => st

/-- The store after a sequence of operations against a fresh database. -/
def runOps (ops : List Op) : State := ops.foldl applyOp initState

/-- All suffixes of a character list, longest first. -/
def suffixes : List Char → List (List Char)
  | [] => [[]]
  | c :: cs => (c :: cs) :: suffixes cs

/-- SQL `LIKE` pattern matching, case-insensitive (`ilike`): `%` matches
any run of characters (the rest of the pattern must match some suffix of
the text), `_` any single character, anything else itself up to case; the
pattern must cover the whole text. -/
def likeMatch : List Char → List Char → Bool
  | [], t => t.isEmpty
  | p :: ps, t =>
    if p = '%' then (suffixes t).any (fun s => likeMatch ps s)
    else
      match t with
      | [] => false
      | c :: ts => (if p = '_' then true else p.toLower == c.toLower) && likeMatch ps ts

/-- services.py line 166: `Todo.judul.ilike(f"%{query}%")`. -/
def keywordPass (query : String) (t : Todo) : Bool :=
  likeMatch ('%' :: (query.data ++ ['%'])) t.judul.data

/-- The conjunction of the filters `search_todos` chains onto `Todo.query`
(lines 165-183): keyword, priority, status synonyms, exact deadline and the
two inclusive deadline bounds; SQL `NULL` comparisons exclude rows with no
deadline. -/
def searchPred (query priority status deadline dfrom dto : String)
    (t : Todo) : Bool :=
  (query == "" || keywordPass query t) &&
  (if priority ≠ "" ∧ pyCapitalize priority ∈ PRIORITIES
   then t.prioritas == pyCapitalize priority else true) &&
  (if pyLower status ∈ (["completed", "selesai"] : List String)
   then t.status == true
   else if pyLower status ∈ (["pending", "belum"] : List String)
   then t.status == false
   else true) &&
  (if deadline ≠ ""
   then (match t.deadline with | some dl => dl == deadline | none => false)
   else true) &&
  (if dfrom ≠ ""
   then (match t.deadline with | some dl => decide (dfrom ≤ dl) | none => false)
   else true) &&
  (if dto ≠ ""
   then (match t.deadline with | some dl => decide (dl ≤ dto) | none => false)
   else true)

/-- The rows selected by the filters of `search_todos`, before the
ordering/pagination stage (whose tie order the source does not fix). -/
def searchFiltered (st : State)
    (query priority status deadline dfrom dto : String) : List Todo :=
  st.todos.filter (searchPred query priority status deadline dfrom dto)

/-- Claim-side reading of "the title contains the keyword as a
case-insensitive literal substring": the lowercased keyword is a
contiguous sublist of the lowercased title. -/
def containsCI (needle hay : String) : Prop :=
  (needle.data.map Char.toLower) <:+: (hay.data.map Char.toLower)

instance (n h : String) : Decidable (containsCI n h) :=
  inferInstanceAs (Decidable (_ <:+: _))

/-! ## Pagination parameter validation -/

lemma parseParam_eq_none_iff (o : Option String) (d : Int) :
    parseParam o d = none ↔ ∃ s, o = some s ∧ s ≠ "" ∧ pyInt s = none := by
  cases o with
  | none => simp [parseParam]
  | some s =>
    by_cases hs : s = "" <;> simp [parseParam, hs]

lemma validate_error_iff (p pp : Option String) :
    validate_pagination_params p pp = .error .invalidPagination ↔
      (parseParam p DEFAULT_PAGE = none ∨ parseParam pp DEFAULT_PER_PAGE = none) := by
  unfold validate_pagination_params
  cases h1 : parseParam p DEFAULT_PAGE <;>
    cases h2 : parseParam pp DEFAULT_PER_PAGE <;> simp

lemma clampPage_eq (p : Int) : clampPage p = if p < 1 then 1 else p := rfl

lemma clampPer_eq (pp : Int) :
    clampPer pp = if pp > 100 then 100 else if pp < 1 then 10 else pp := by
  simp only [clampPer, MAX_PER_PAGE, DEFAULT_PER_PAGE]
  split_ifs <;> omega

/-- C2: pagination validation — a present, non-empty, non-integer string on
either parameter yields `InvalidPagination`; absent parameters default to
page 1 and per_page 10; `page < 1` is clamped to 1, `per_page > 100` to
100, `per_page < 1` resets to 10, and all clamps succeed without error. -/
theorem C2_pagination_validation :
    (∀ s o, s ≠ "" → pyInt s = none →
      validate_pagination_params (some s) o = .error .invalidPagination) ∧
    (∀ o s, s ≠ "" → pyInt s = none →
      validate_pagination_params o (some s) = .error .invalidPagination) ∧
    validate_pagination_params none none = .ok (1, 10) ∧
    (∀ pp r, validate_pagination_params none pp = .ok r → r.1 = 1) ∧
    (∀ p r, validate_pagination_params p none = .ok r → r.2 = 10) ∧
    (∀ s t n m, pyInt s = some n → pyInt t = some m →
      validate_pagination_params (some s) (some t) =
        .ok (if n < 1 then 1 else n,
             if m > 100 then 100 else if m < 1 then 10 else m)) := by
  refine ⟨?_, ?_, ?_, ?_, ?_, ?_⟩
  · intro s o hs hnone
    rw [validate_error_iff]
    exact Or.inl ((parseParam_eq_none_iff _ _).mpr ⟨s, rfl, hs, hnone⟩)
  · intro o s hs hnone
    rw [validate_error_iff]
    exact Or.inr ((parseParam_eq_none_iff _ _).mpr ⟨s, rfl, hs, hnone⟩)
  · rfl
  · intro pp r h
    unfold validate_pagination_params at h
    cases h2 : parseParam pp DEFAULT_PER_PAGE with
    | none => rw [h2] at h; simp [parseParam, DEFAULT_PAGE] at h
    | some m =>
      rw [h2] at h
      simp only [parseParam, DEFAULT_PAGE, Except.ok.injEq] at h
      rw [← h]
      rfl
  · intro p r h
    unfold validate_pagination_params at h
    cases h1 : parseParam p DEFAULT_PAGE with
    | none => rw [h1] at h; simp [parseParam, DEFAULT_PER_PAGE] at h
    | some n =>
      rw [h1] at h
      simp only [parseParam, DEFAULT_PER_PAGE, Except.ok.injEq] at h
      rw [← h]
      rfl
  · intro s t n m hs ht
    have hs' : s ≠ "" := by
      intro h; subst h; rw [show pyInt "" = none from rfl] at hs; exact absurd hs (by simp)
    have ht' : t ≠ "" := by
      intro h; subst h; rw [show pyInt "" = none from rfl] at ht; exact absurd ht (by simp)
    unfold validate_pagination_params
    simp only [parseParam, if_neg hs', if_neg ht', hs, ht, clampPage_eq, clampPer_eq]

/-- C2 witness: a non-integer `page` string fails with the pagination
error. -/
theorem C2_pagination_validation_witness :
    validate_pagination_params (some "abc") none = .error .invalidPagination :=
  C2_pagination_validation.1 "abc" none (by decide) rfl

/-- C10: an empty-string `page` or `per_page` behaves exactly like an
absent parameter (defaults apply); a whitespace-only string fails; and an
error occurs exactly for a present, non-empty string that does not parse as
an integer. -/
theorem C10_empty_string_pagination :
    (∀ o, validate_pagination_params (some "") o =
      validate_pagination_params none o) ∧
    (∀ o, validate_pagination_params o (some "") =
      validate_pagination_params o none) ∧
    validate_pagination_params (some " ") none = .error .invalidPagination ∧
    (∀ p pp, validate_pagination_params p pp = .error .invalidPagination ↔
      ((∃ s, p = some s ∧ s ≠ "" ∧ pyInt s = none) ∨
       (∃ s, pp = some s ∧ s ≠ "" ∧ pyInt s = none))) := by
  refine ⟨fun o => rfl, fun o => rfl, by decide, ?_⟩
  intro p pp
  rw [validate_error_iff, parseParam_eq_none_iff, parseParam_eq_none_iff]

/-- C10 witness: the empty-string `per_page` sends a concrete request to
the default path. -/
theorem C10_empty_string_pagination_witness :
    validate_pagination_params (some "3") (some "") =
      validate_pagination_params (some "3") none :=
  C10_empty_string_pagination.2.1 (some "3")

/-! ## Store invariants -/

/-- Well-formedness of the store: rows in strictly ascending id order, ids
below the autoincrement counter, and pairwise distinct titles (the
database's unique constraint). -/
def Inv (st : State) : Prop :=
  st.todos.Pairwise (fun a b => a.id < b.id) ∧
  (∀ t ∈ st.todos, t.id < st.nextId) ∧
  st.todos.Pairwise (fun a b => a.judul ≠ b.judul)

lemma inv_init : Inv initState := by
  simp [Inv, initState]

lemma create_ok_inv {st : State} {d : TodoInput} {now : Nat} {st' : State}
    {t : Todo} (h : create_todo st d now = .ok (st', t)) :
    ∃ j, d.judul? = some j ∧ dupCheck st d = false ∧ loadErrors d false = [] ∧
      t = { id := st.nextId, judul := j, status := d.status?.getD false,
            prioritas := d.prioritas?.getD "Medium",
            deadline := d.deadline?.getD none, created_at := now,
            updated_at := none } ∧
      st' = { todos := st.todos ++ [t], nextId := st.nextId + 1 } := by
  unfold create_todo at h
  split at h
  · exact absurd h (by simp)
  · rename_i hEmpty
    split at h
    · exact absurd h (by simp)
    · rename_i hDup
      cases hLoad : loadErrors d false with
      | cons e es => rw [hLoad] at h; exact absurd h (by simp)
      | nil =>
        rw [hLoad] at h
        simp only [Except.ok.injEq, Prod.mk.injEq] at h
        have hj : ∃ j, d.judul? = some j := by
          cases hjq : d.judul? with
          | some j => exact ⟨j, rfl⟩
          | none =>
            unfold loadErrors judulErrors at hLoad
            rw [hjq] at hLoad
            simp at hLoad
        obtain ⟨j, hjq⟩ := hj
        refine ⟨j, hjq, by simpa using hDup, rfl, ?_, ?_⟩
        · rw [← h.2]; simp [hjq]
        · rw [← h.1, ← h.2]

lemma update_ok_inv {st : State} {i now : Nat} {d : TodoInput} {st' : State}
    {t' : Todo} (h : update_todo st i d now = .ok (st', t')) :
    ∃ t, st.todos.find? (fun u => u.id == i) = some t ∧
      loadErrors d true = [] ∧
      ((applyPatch t d = t ∧ t' = t ∧ st' = st) ∨
       (applyPatch t d ≠ t ∧
        t' = { applyPatch t d with updated_at := some now } ∧
        (st.todos.any (fun u => (u.id != i) && (u.judul == t'.judul))) = false ∧
        st' = { st with
                todos := st.todos.map (fun u => if u.id == i then t' else u) })) := by
  by_cases hEmpty : d.isEmpty = true
  · rw [update_todo, if_pos hEmpty] at h
    exact absurd h (by simp)
  · cases hFind : st.todos.find? (fun u => u.id == i) with
    | none =>
      rw [update_todo, if_neg hEmpty] at h
      simp only [hFind] at h
      exact absurd h (by simp)
    | some t =>
      cases hLoad : loadErrors d true with
      | cons e es =>
        rw [update_todo, if_neg hEmpty] at h
        simp only [hFind, hLoad] at h
        exact absurd h (by simp)
      | nil =>
        rw [update_todo, if_neg hEmpty] at h
        simp only [hFind, hLoad] at h
        split at h
        · rename_i hSame
          simp only [Except.ok.injEq, Prod.mk.injEq] at h
          exact ⟨t, rfl, rfl, Or.inl ⟨hSame, h.2.symm, h.1.symm⟩⟩
        · rename_i hSame
          split at h
          · exact absurd h (by simp)
          · rename_i hAny
            simp only [Except.ok.injEq, Prod.mk.injEq] at h
            obtain ⟨h1, h2⟩ := h
            refine ⟨t, rfl, rfl, Or.inr ⟨hSame, h2.symm, ?_, ?_⟩⟩
            · rw [← h2]
              simpa using hAny
            · rw [← h1, h2]

lemma pairwise_judul_map (l : List Todo) (i : Nat) (t' : Todo)
    (hpw : l.Pairwise (fun a b => a.judul ≠ b.judul))
    (hids : l.Pairwise (fun a b => a.id < b.id))
    (hc : ∀ u ∈ l, u.id = i ∨ u.judul ≠ t'.judul) :
    (l.map (fun u => if u.id == i then t' else u)).Pairwise
      (fun a b => a.judul ≠ b.judul) := by
  induction l with
  | nil => simp
  | cons x xs ih =>
    rw [List.pairwise_cons] at hpw hids
    rw [List.map_cons, List.pairwise_cons]
    obtain ⟨hpw1, hpw2⟩ := hpw
    obtain ⟨hids1, hids2⟩ := hids
    by_cases hx : x.id = i
    · have hxs_ne : ∀ u ∈ xs, u.id ≠ i := fun u hu => by
        have := hids1 u hu; omega
      have hmapfix : ∀ u ∈ xs, (if u.id == i then t' else u) = u := by
        intro u hu; simp [hxs_ne u hu]
      have hmap : xs.map (fun u => if u.id == i then t' else u) = xs := by
        have h1 : xs.map (fun u => if u.id == i then t' else u) = xs.map id :=
          List.map_congr_left (fun u hu => hmapfix u hu)
        rw [h1, List.map_id]
      have hfx : (if x.id == i then t' else x) = t' := by simp [hx]
      rw [hmap, hfx]
      refine ⟨?_, hpw2⟩
      intro b hb
      rcases hc b (List.mem_cons_of_mem x hb) with hbi | hbne
      · exact absurd hbi (hxs_ne b hb)
      · exact fun hh => hbne hh.symm
    · have hfx : (if x.id == i then t' else x) = x := by simp [hx]
      rw [hfx]
      refine ⟨?_, ih hpw2 hids2 (fun u hu => hc u (List.mem_cons_of_mem x hu))⟩
      intro b hb
      obtain ⟨v, hv, rfl⟩ := List.mem_map.mp hb
      by_cases hvi : v.id = i
      · have hfv : (if v.id == i then t' else v) = t' := by simp [hvi]
        rw [hfv]
        rcases hc x (List.mem_cons_self x xs) with hxi | hxne
        · exact absurd hxi hx
        · exact hxne
      · have hfv : (if v.id == i then t' else v) = v := by simp [hvi]
        rw [hfv]
        exact hpw1 v hv

lemma inv_create {st : State} {d : TodoInput} {now : Nat} {st' : State}
    {t : Todo} (h : create_todo st d now = .ok (st', t)) (hinv : Inv st) :
    Inv st' := by
  obtain ⟨j, hjq, hdup, _, ht, hst'⟩ := create_ok_inv h
  obtain ⟨hid, hbound, htit⟩ := hinv
  have hjt : t.judul = j := by rw [ht]
  have hit : t.id = st.nextId := by rw [ht]
  have hnodup : ∀ u ∈ st.todos, u.judul ≠ j := by
    intro u hu
    unfold dupCheck at hdup
    rw [hjq] at hdup
    rw [List.any_eq_false] at hdup
    simpa using hdup u hu
  subst hst'
  refine ⟨?_, ?_, ?_⟩
  · rw [List.pairwise_append]
    refine ⟨hid, by simp, ?_⟩
    intro a ha b hb
    rw [List.mem_singleton] at hb
    subst hb
    rw [hit]
    exact hbound a ha
  · intro u hu
    rcases List.mem_append.mp hu with hu | hu
    · exact Nat.lt_succ_of_lt (hbound u hu)
    · rw [List.mem_singleton] at hu
      subst hu
      rw [hit]
      exact Nat.lt_succ_self _
  · rw [List.pairwise_append]
    refine ⟨htit, by simp, ?_⟩
    intro a ha b hb
    rw [List.mem_singleton] at hb
    subst hb
    rw [hjt]
    exact hnodup a ha

lemma inv_update {st : State} {i now : Nat} {d : TodoInput} {st' : State}
    {t' : Todo} (h : update_todo st i d now = .ok (st', t')) (hinv : Inv st) :
    Inv st' := by
  obtain ⟨t, hfind, _, hbranch⟩ := update_ok_inv h
  rcases hbranch with ⟨_, _, rfl⟩ | ⟨_, ht', hany, hst'⟩
  · exact hinv
  obtain ⟨hid, hbound, htit⟩ := hinv
  have hti : t.id = i := by
    have := List.find?_some hfind
    simpa using this
  have ht'i : t'.id = i := by rw [ht', ← hti]; rfl
  have hfix : ∀ u : Todo, (if u.id == i then t' else u).id = u.id := by
    intro u
    by_cases hu : u.id = i
    · simp [hu, ht'i]
    · simp [hu]
  have hc : ∀ u ∈ st.todos, u.id = i ∨ u.judul ≠ t'.judul := by
    intro u hu
    by_cases hui : u.id = i
    · exact Or.inl hui
    · refine Or.inr ?_
      rw [List.any_eq_false] at hany
      have := hany u hu
      simpa [hui] using this
  subst hst'
  refine ⟨?_, ?_, ?_⟩
  · rw [List.pairwise_map]
    exact hid.imp (fun hab => by rw [hfix, hfix]; exact hab)
  · intro u hu
    obtain ⟨v, hv, rfl⟩ := List.mem_map.mp hu
    rw [hfix v]
    exact hbound v hv
  · exact pairwise_judul_map st.todos i t' htit hid hc

lemma inv_delete {st : State} {i : Nat} {st' : State}
    (h : delete_todo st i = .ok st') (hinv : Inv st) : Inv st' := by
  obtain ⟨hid, hbound, htit⟩ := hinv
  unfold delete_todo at h
  cases hFind : st.todos.find? (fun t => t.id == i) with
  | none => rw [hFind] at h; exact absurd h (by simp)
  | some t =>
    rw [hFind] at h
    simp only [Except.ok.injEq] at h
    rw [← h]
    refine ⟨?_, ?_, ?_⟩
    · exact hid.sublist (List.filter_sublist _)
    · intro u hu
      exact hbound u (List.mem_of_mem_filter hu)
    · exact htit.sublist (List.filter_sublist _)

lemma inv_applyOp {st : State} (op : Op) (hinv : Inv st) :
    Inv (applyOp st op) := by
  cases op with
  | create d now =>
    simp only [applyOp]
    cases h : create_todo st d now with
    | ok r =>
      obtain ⟨st', t⟩ := r
      exact inv_create h hinv
    | error e => exact hinv
  | update i d now =>
    simp only [applyOp]
    cases h : update_todo st i d now with
    | ok r =>
      obtain ⟨st', t⟩ := r
      exact inv_update h hinv
    | error e => exact hinv
  | delete i =>
    simp only [applyOp]
    cases h : delete_todo st i with
    | ok st' => exact inv_delete h hinv
    | error e => exact hinv

lemma inv_foldl (ops : List Op) (st : State) (h : Inv st) :
    Inv (ops.foldl applyOp st) := by
  induction ops generalizing st with
  | nil => exact h
  | cons op ops ih => exact ih _ (inv_applyOp op h)

lemma inv_runOps (ops : List Op) : Inv (runOps ops) :=
  inv_foldl ops initState inv_init

/-! ## C1: title uniqueness -/

def c1wSt : State := runOps [.create { judul? := some "a" } 0]

def c1xSt : State :=
  runOps [.create { judul? := some "a" } 0, .create { judul? := some "b" } 1]

/-- C1 (amended): in every state reachable by Create/Update/Delete from the
empty store, no two stored todos share a title; a Create whose title equals
a stored one fails with DuplicateTitle before persisting. (An Update that
would break uniqueness also persists nothing, but it fails with the storage
constraint error, not DuplicateTitle — see the counterexample.) -/
theorem C1_title_uniqueness :
    (∀ ops : List Op,
      (runOps ops).todos.Pairwise (fun a b => a.judul ≠ b.judul)) ∧
    (∀ (st : State) (d : TodoInput) (now : Nat) (j : String),
      d.judul? = some j → (∃ u ∈ st.todos, u.judul = j) →
      create_todo st d now = .error .duplicateTitle) := by
  constructor
  · intro ops
    exact (inv_runOps ops).2.2
  · intro st d now j hjq hex
    obtain ⟨u, hu, huj⟩ := hex
    have hne : d.isEmpty = false := by
      simp [TodoInput.isEmpty, hjq]
    have hdup : dupCheck st d = true := by
      unfold dupCheck
      rw [hjq, List.any_eq_true]
      exact ⟨u, hu, by simp [huj]⟩
    simp [create_todo, hne, hdup]

/-- C1 witness: creating "a" twice — the second create is refused as a
duplicate. -/
theorem C1_title_uniqueness_witness :
    create_todo c1wSt { judul? := some "a" } 1 = .error .duplicateTitle :=
  C1_title_uniqueness.2 c1wSt { judul? := some "a" } 1 "a" rfl
    ⟨{ id := 1, judul := "a", status := false, prioritas := "Medium",
       deadline := none, created_at := 0, updated_at := none },
     by decide, rfl⟩

/-- C1 counterexample: with stored titles "a" (id 1) and "b" (id 2), the
update that renames id 2 to "a" — a write that would break uniqueness —
fails with the storage constraint error, not with DuplicateTitle as the
claim states. -/
theorem C1_counterexample :
    c1xSt.todos.map Todo.judul = ["a", "b"] ∧
    update_todo c1xSt 2 { judul? := some "a" } 2 = .error .storageError ∧
    Err.storageError ≠ Err.duplicateTitle :=
  ⟨rfl, rfl, by decide⟩

/-! ## C4: order of the checks inside Create -/

def c4St : State := runOps [.create { judul? := some "a" } 0]

def c4In : TodoInput := { judul? := some "a", prioritas? := some "bogus" }

/-- C4 counterexample: an input that is both invalid (priority "bogus") and
carries a stored title fails with DuplicateTitle — not with
ValidationFailed as the claim states — because create_todo runs the
duplicate check before the schema load. -/
theorem C4_counterexample :
    prioritasErrors c4In.prioritas? = ["prioritas"] ∧
    dupCheck c4St c4In = true ∧
    create_todo c4St c4In 1 = .error .duplicateTitle :=
  ⟨rfl, rfl, rfl⟩

/-- C4 (amended): Create checks its failure conditions in the order
empty-input, duplicate title, entity validation: a non-empty input whose
title equals a stored todo's fails with DuplicateTitle regardless of the
validity of its other fields, and entity validation decides the outcome
only when the duplicate check passes. -/
theorem C4_check_order :
    (∀ (st : State) (d : TodoInput) (now : Nat) (j : String),
      d.judul? = some j → (∃ u ∈ st.todos, u.judul = j) →
      create_todo st d now = .error .duplicateTitle) ∧
    (∀ (st : State) (d : TodoInput) (now : Nat) (e : String)
      (es : List String),
      d.isEmpty = false → dupCheck st d = false →
      loadErrors d false = e :: es →
      create_todo st d now = .error (.validationFailed (e :: es))) := by
  constructor
  · intro st d now j hjq hex
    obtain ⟨u, hu, huj⟩ := hex
    have hne : d.isEmpty = false := by
      simp [TodoInput.isEmpty, hjq]
    have hdup : dupCheck st d = true := by
      unfold dupCheck
      rw [hjq, List.any_eq_true]
      exact ⟨u, hu, by simp [huj]⟩
    simp [create_todo, hne, hdup]
  · intro st d now e es hne hdup hload
    simp [create_todo, hne, hdup, hload]

/-- C4 witness: the duplicate-and-invalid input of the counterexample goes
through the first branch of the amended ordering theorem. -/
theorem C4_check_order_witness :
    create_todo c4St c4In 2 = .error .duplicateTitle :=
  C4_check_order.1 c4St c4In 2 "a" rfl
    ⟨{ id := 1, judul := "a", status := false, prioritas := "Medium",
       deadline := none, created_at := 0, updated_at := none },
     by decide, rfl⟩

/-! ## C9: unknown payload keys -/

def c9In : TodoInput := { judul? := some "t", extra := ["foo"] }

/-- C9 counterexample: a payload with the unknown key "foo" is rejected
with a validation error naming the key, while the same payload without the
key succeeds — the operation does not behave as if the key were absent. -/
theorem C9_counterexample :
    create_todo initState c9In 0 = .error (.validationFailed ["foo"]) ∧
    create_todo initState { judul? := some "t" } 0 =
      .ok ({ todos := [{ id := 1, judul := "t", status := false,
                         prioritas := "Medium", deadline := none,
                         created_at := 0, updated_at := none }],
             nextId := 2 },
           { id := 1, judul := "t", status := false, prioritas := "Medium",
             deadline := none, created_at := 0, updated_at := none }) :=
  ⟨rfl, rfl⟩

/-- C9 (amended): keys outside the loadable field set are not ignored —
marshmallow's default `unknown = RAISE` makes any payload containing such a
key fail, so neither Create nor Update ever succeeds on it. -/
theorem C9_unknown_keys_rejected :
    ∀ (st : State) (d : TodoInput) (now i : Nat),
      d.extra ≠ [] →
      (∀ r, create_todo st d now ≠ .ok r) ∧
      (∀ r, update_todo st i d now ≠ .ok r) := by
  intro st d now i hx
  constructor
  · intro r hok
    obtain ⟨st', t⟩ := r
    obtain ⟨j, _, _, hload, _, _⟩ := create_ok_inv hok
    rw [loadErrors] at hload
    simp [List.append_eq_nil] at hload
    exact hx hload.1
  · intro r hok
    obtain ⟨st', t⟩ := r
    obtain ⟨t0, _, hload, _⟩ := update_ok_inv hok
    rw [loadErrors] at hload
    simp [List.append_eq_nil] at hload
    exact hx hload.1

/-- C9 witness: the unknown-key payload of the counterexample can never
produce a successful create. -/
theorem C9_unknown_keys_rejected_witness :
    create_todo initState c9In 0 ≠
      .ok ({ todos := [{ id := 1, judul := "t", status := false,
                         prioritas := "Medium", deadline := none,
                         created_at := 0, updated_at := none }],
             nextId := 2 },
           { id := 1, judul := "t", status := false, prioritas := "Medium",
             deadline := none, created_at := 0, updated_at := none }) :=
  (C9_unknown_keys_rejected initState c9In 0 0 (by decide)).1 _

/-! ## C5: priority case-normalization on store -/

def c5In : TodoInput := { judul? := some "t", prioritas? := some "high" }

def c5Todo : Todo :=
  { id := 1, judul := "t", status := false, prioritas := "high",
    deadline := none, created_at := 0, updated_at := none }

def c5St : State := { todos := [c5Todo], nextId := 2 }

/-- C5: creating a todo with priority "high" succeeds (validation
capitalizes only for the comparison), but the stored value is the verbatim
"high", not the capitalized "High" the claim asserts; consequently the
stored row does not match a priority search for "high", which filters on
the capitalized form. -/
theorem C5_priority_stored_verbatim :
    create_todo initState c5In 0 = .ok (c5St, c5Todo) ∧
    c5Todo.prioritas = "high" ∧
    "high" ≠ "High" ∧
    pyCapitalize "high" = "High" ∧
    searchFiltered c5St "" "high" "" "" "" "" = [] :=
  ⟨rfl, rfl, by decide, rfl, rfl⟩

/-! ## C8: delete of a missing id -/

/-- C8: deleting an id that is not in the store fails with NotFound and
leaves the store unchanged; after a successful delete, deleting the same id
again fails with NotFound. -/
theorem C8_delete_missing_id :
    (∀ (st : State) (i : Nat),
      st.todos.find? (fun t => t.id == i) = none →
      delete_todo st i = .error .notFound ∧ applyOp st (.delete i) = st) ∧
    (∀ (st : State) (i : Nat) (st' : State),
      delete_todo st i = .ok st' → delete_todo st' i = .error .notFound) := by
  constructor
  · intro st i h
    have hdel : delete_todo st i = .error .notFound := by
      rw [delete_todo, h]
    refine ⟨hdel, ?_⟩
    simp [applyOp, hdel]
  · intro st i st' h
    unfold delete_todo at h
    cases hFind : st.todos.find? (fun t => t.id == i) with
    | none => rw [hFind] at h; exact absurd h (by simp)
    | some t =>
      rw [hFind] at h
      simp only [Except.ok.injEq] at h
      have hnone : st'.todos.find? (fun t => t.id == i) = none := by
        rw [← h]
        rw [List.find?_eq_none]
        intro x hx
        have hmem := List.mem_filter.mp hx
        simpa using hmem.2
      rw [delete_todo, hnone]

/-- C8 witness: deleting id 1 from the empty store. -/
theorem C8_delete_missing_id_witness :
    delete_todo initState 1 = .error .notFound ∧
      applyOp initState (.delete 1) = initState :=
  C8_delete_missing_id.1 initState 1 rfl

/-! ## C7: partial update frame -/

/-- C7 (amended): a successful partial update assigns exactly the supplied
fields; id, created_at and every unsupplied field keep their prior values.
The updated_at stamp follows the flush semantics: when some supplied value
differs from the current record, updated_at is set to the commit time (and
strictly increases when the clock has advanced past the previous value);
when every supplied value equals the current one, no UPDATE is emitted and
the record — updated_at included — is returned completely unchanged. -/
theorem C7_partial_update_frame :
    ∀ (st : State) (i now : Nat) (d : TodoInput) (t t' : Todo) (st' : State),
      st.todos.find? (fun u => u.id == i) = some t →
      update_todo st i d now = .ok (st', t') →
      (t'.id = t.id ∧ t'.created_at = t.created_at ∧
       (∀ j, d.judul? = some j → t'.judul = j) ∧
       (d.judul? = none → t'.judul = t.judul) ∧
       (∀ b, d.status? = some b → t'.status = b) ∧
       (d.status? = none → t'.status = t.status) ∧
       (∀ p, d.prioritas? = some p → t'.prioritas = p) ∧
       (d.prioritas? = none → t'.prioritas = t.prioritas) ∧
       (∀ v, d.deadline? = some v → t'.deadline = v) ∧
       (d.deadline? = none → t'.deadline = t.deadline) ∧
       (applyPatch t d ≠ t → t'.updated_at = some now) ∧
       (applyPatch t d ≠ t → ∀ u, t.updated_at = some u → u < now →
         ∃ v, t'.updated_at = some v ∧ u < v) ∧
       (applyPatch t d = t → t' = t ∧ st' = st)) := by
  intro st i now d t t' st' hfind hok
  obtain ⟨t0, hfind0, _, hbranch⟩ := update_ok_inv hok
  rw [hfind] at hfind0
  simp only [Option.some.injEq] at hfind0
  subst hfind0
  rcases hbranch with ⟨hSame, ht', hst'⟩ | ⟨hDiff, ht', _, _⟩
  · refine ⟨by rw [ht'], by rw [ht'], ?_, fun _ => by rw [ht'], ?_,
      fun _ => by rw [ht'], ?_, fun _ => by rw [ht'], ?_,
      fun _ => by rw [ht'], fun hcon => absurd hSame hcon,
      fun hcon => absurd hSame hcon, fun _ => ⟨ht', hst'⟩⟩
    · intro j hj
      rw [ht', ← hSame]
      simp [applyPatch, hj]
    · intro b hb
      rw [ht', ← hSame]
      simp [applyPatch, hb]
    · intro p hp
      rw [ht', ← hSame]
      simp [applyPatch, hp]
    · intro v hv
      rw [ht', ← hSame]
      simp [applyPatch, hv]
  · subst ht'
    refine ⟨rfl, rfl, ?_, ?_, ?_, ?_, ?_, ?_, ?_, ?_, fun _ => rfl, ?_,
      fun hcon => absurd hcon hDiff⟩
    · intro j hj; simp [applyPatch, hj]
    · intro hj; simp [applyPatch, hj]
    · intro b hb; simp [applyPatch, hb]
    · intro hb; simp [applyPatch, hb]
    · intro p hp; simp [applyPatch, hp]
    · intro hp; simp [applyPatch, hp]
    · intro v hv; simp [applyPatch, hv]
    · intro hv; simp [applyPatch, hv]
    · intro _ u _ hu
      exact ⟨now, rfl, hu⟩

def c7St : State := runOps [.create { judul? := some "a" } 0]

def c7In : TodoInput := { status? := some true }

def c7t : Todo :=
  { id := 1, judul := "a", status := false, prioritas := "Medium",
    deadline := none, created_at := 0, updated_at := none }

def c7t' : Todo :=
  { id := 1, judul := "a", status := true, prioritas := "Medium",
    deadline := none, created_at := 0, updated_at := some 5 }

def c7St' : State := { todos := [c7t'], nextId := 2 }

/-- C7 witness: updating only `status` (a net change) keeps title and
created_at and stamps updated_at with the commit time. -/
theorem C7_partial_update_frame_witness :
    c7t'.status = true ∧ c7t'.judul = c7t.judul ∧
      c7t'.created_at = c7t.created_at ∧ c7t'.updated_at = some 5 := by
  have h := C7_partial_update_frame c7St 1 5 c7In c7t c7t' c7St' rfl rfl
  obtain ⟨_, hcr, _, hjn, hss, _, _, _, _, _, hupd, _, _⟩ := h
  exact ⟨hss true rfl, hjn rfl, hcr, hupd (by decide)⟩

def c7xIn : TodoInput := { status? := some false }

/-- C7 counterexample: a non-empty payload that passes validation but sets
status to the value it already has succeeds, yet SQLAlchemy emits no
UPDATE for it, so the onupdate hook never fires and updated_at stays unset
— it does not "become set" as the claim states. -/
theorem C7_counterexample :
    c7xIn.isEmpty = false ∧
    loadErrors c7xIn true = [] ∧
    update_todo c7St 1 c7xIn 5 = .ok (c7St, c7t) ∧
    c7t.updated_at = none :=
  ⟨rfl, rfl, rfl, rfl⟩

/-! ## C6: the keyword filter -/

lemma mem_suffixes {s t : List Char} : s ∈ suffixes t ↔ s <:+ t := by
  induction t with
  | nil => simp [suffixes, List.suffix_nil]
  | cons c ts ih =>
    simp only [suffixes, List.mem_cons, ih, List.suffix_cons_iff]

lemma likeMatch_pct (ps t : List Char) :
    likeMatch ('%' :: ps) t = true ↔
      ∃ t2, t2 <:+ t ∧ likeMatch ps t2 = true := by
  rw [show likeMatch ('%' :: ps) t = (suffixes t).any (fun s => likeMatch ps s)
      from by simp [likeMatch]]
  rw [List.any_eq_true]
  constructor
  · rintro ⟨s, hs, hm⟩
    exact ⟨s, mem_suffixes.mp hs, hm⟩
  · rintro ⟨s, hs, hm⟩
    exact ⟨s, mem_suffixes.mpr hs, hm⟩

lemma likeMatch_lit_pct {p : List Char} (hp1 : '%' ∉ p) (hp2 : '_' ∉ p)
    (t : List Char) :
    likeMatch (p ++ ['%']) t = true ↔
      ∃ x y, t = x ++ y ∧ x.map Char.toLower = p.map Char.toLower := by
  induction p generalizing t with
  | nil =>
    rw [List.nil_append, likeMatch_pct]
    constructor
    · intro _
      exact ⟨[], t, rfl, rfl⟩
    · intro _
      exact ⟨[], List.nil_suffix, by simp [likeMatch]⟩
  | cons a ps ih =>
    have ha1 : a ≠ '%' := fun h => hp1 (h ▸ List.mem_cons_self a ps)
    have ha2 : a ≠ '_' := fun h => hp2 (h ▸ List.mem_cons_self a ps)
    have hp1' : '%' ∉ ps := fun h => hp1 (List.mem_cons_of_mem a h)
    have hp2' : '_' ∉ ps := fun h => hp2 (List.mem_cons_of_mem a h)
    cases t with
    | nil =>
      rw [List.cons_append]
      rw [show likeMatch (a :: (ps ++ ['%'])) [] = false
          from by simp [likeMatch, ha1]]
      constructor
      · intro h
        exact absurd h (by simp)
      · rintro ⟨x, y, hxy, hmap⟩
        rcases List.append_eq_nil.mp hxy.symm with ⟨rfl, -⟩
        simp at hmap
    | cons c ts =>
      rw [List.cons_append]
      rw [show likeMatch (a :: (ps ++ ['%'])) (c :: ts) =
            ((if a = '_' then true else a.toLower == c.toLower) &&
              likeMatch (ps ++ ['%']) ts)
          from by simp [likeMatch, ha1]]
      rw [if_neg ha2, Bool.and_eq_true, beq_iff_eq, ih hp1' hp2']
      constructor
      · rintro ⟨hac, x, y, hts, hxy⟩
        refine ⟨c :: x, y, by rw [hts, List.cons_append], ?_⟩
        simp [List.map_cons, hxy, hac]
      · rintro ⟨x, y, hxy, hmap⟩
        cases x with
        | nil => simp at hmap
        | cons x0 xs =>
          rw [List.cons_append] at hxy
          injection hxy with h1 h2
          simp only [List.map_cons, List.cons.injEq] at hmap
          obtain ⟨hm1, hm2⟩ := hmap
          refine ⟨?_, xs, y, h2, hm2⟩
          rw [← h1] at hm1
          exact hm1.symm

lemma keywordPass_iff {q : String} (hp1 : '%' ∉ q.data) (hp2 : '_' ∉ q.data)
    (t : Todo) : keywordPass q t = true ↔ containsCI q t.judul := by
  unfold keywordPass containsCI
  rw [likeMatch_pct]
  constructor
  · rintro ⟨t2, ht2, hm⟩
    rw [likeMatch_lit_pct hp1 hp2] at hm
    obtain ⟨a, b, rfl, hab⟩ := hm
    obtain ⟨t1, ht1⟩ := ht2
    refine ⟨t1.map Char.toLower, b.map Char.toLower, ?_⟩
    rw [← ht1, ← hab]
    simp [List.map_append, List.append_assoc]
  · intro hinf
    obtain ⟨s, u, hsu⟩ := hinf
    refine ⟨(t.judul.data).drop s.length, List.drop_suffix _ _, ?_⟩
    rw [likeMatch_lit_pct hp1 hp2]
    refine ⟨((t.judul.data).drop s.length).take q.data.length,
            ((t.judul.data).drop s.length).drop q.data.length,
            (List.take_append_drop _ _).symm, ?_⟩
    have hdrop : ((t.judul.data).drop s.length).map Char.toLower =
        (q.data.map Char.toLower) ++ u := by
      rw [List.map_drop, ← hsu, List.append_assoc, List.drop_left]
    rw [List.map_take, hdrop]
    exact List.take_left' (by rw [List.length_map])

lemma searchPred_keyword_only (q : String) (t : Todo) :
    searchPred q "" "" "" "" "" t = (q == "" || keywordPass q t) := by
  have h : searchPred q "" "" "" "" "" t =
      ((q == "" || keywordPass q t) && true && true && true && true && true) :=
    rfl
  rw [h]
  simp

/-- C6 (amended): for a keyword free of the SQL wildcard characters `%` and
`_`, the keyword filter selects exactly the todos whose (lowercased) title
contains the (lowercased) keyword as a contiguous substring; an empty
keyword imposes no constraint. (A keyword containing `%` or `_` is
interpreted as a LIKE pattern instead — see the counterexample.) -/
theorem C6_keyword_search :
    (∀ (st : State) (q : String) (t : Todo),
      '%' ∉ q.data → '_' ∉ q.data →
      (t ∈ searchFiltered st q "" "" "" "" "" ↔
        t ∈ st.todos ∧ containsCI q t.judul)) ∧
    (∀ (st : State) (t : Todo),
      t ∈ searchFiltered st "" "" "" "" "" "" ↔ t ∈ st.todos) := by
  have hmain : ∀ (st : State) (q : String) (t : Todo),
      '%' ∉ q.data → '_' ∉ q.data →
      (t ∈ searchFiltered st q "" "" "" "" "" ↔
        t ∈ st.todos ∧ containsCI q t.judul) := by
    intro st q t h1 h2
    unfold searchFiltered
    rw [List.mem_filter, searchPred_keyword_only]
    refine and_congr_right ?_
    intro _
    by_cases hq : q = ""
    · subst hq
      constructor
      · intro _
        exact ⟨[], t.judul.data.map Char.toLower, by simp⟩
      · intro _
        rfl
    · have hq' : (q == "") = false := by simp [hq]
      rw [hq', Bool.false_or]
      exact keywordPass_iff h1 h2 t
  refine ⟨hmain, ?_⟩
  intro st t
  rw [hmain st "" t (by simp) (by simp)]
  constructor
  · exact And.left
  · intro h
    exact ⟨h, ⟨[], t.judul.data.map Char.toLower, by simp⟩⟩

def c6wTodo : Todo :=
  { id := 1, judul := "Learn Python", status := false, prioritas := "Medium",
    deadline := none, created_at := 0, updated_at := none }

def c6wSt : State := { todos := [c6wTodo], nextId := 2 }

/-- C6 witness: a wildcard-free keyword against a concrete store. -/
theorem C6_keyword_search_witness :
    c6wTodo ∈ searchFiltered c6wSt "learn" "" "" "" "" "" ↔
      c6wTodo ∈ c6wSt.todos ∧ containsCI "learn" c6wTodo.judul :=
  C6_keyword_search.1 c6wSt "learn" c6wTodo (by decide) (by decide)

def c6Todo : Todo :=
  { id := 1, judul := "ab", status := false, prioritas := "Medium",
    deadline := none, created_at := 0, updated_at := none }

def c6St : State := { todos := [c6Todo], nextId := 2 }

/-- C6 counterexample: the keyword "a%" selects the todo titled "ab" even
though "a%" is not a (case-insensitive) literal substring of "ab" — the `%`
in the keyword acts as a LIKE wildcard because the query string is
interpolated unescaped into the pattern. -/
theorem C6_counterexample :
    searchFiltered c6St "a%" "" "" "" "" "" = [c6Todo] ∧
    ¬ containsCI "a%" "ab" :=
  ⟨rfl, by decide⟩

end TodoApp
